import Mathlib

/-!
Shallow embedding, in Lean 4, of the gpytorch `Diagonalization` autograd
function (`gpytorch/functions/_diagonalization.py`) and of
`BetaLikelihood.forward` (`gpytorch/likelihoods/beta_likelihood.py`),
together with theorems settling the specification claims about them.

Tensors are embedded per batch element: a matrix becomes
`Matrix (Fin n) (Fin m) ℚ` and a vector `Fin m → ℚ` (exact rational
arithmetic stands in for floating point; the claims under scrutiny are
algebraic identities and sign/shape facts, which are arithmetic-exact).
The tensor *shape* bookkeeping of the forward pass (unsqueeze/squeeze)
is embedded separately as functions on shape lists with torch semantics.
-/

namespace GPyTorch

/-! ### Diagonalization.backward — building the reciprocal-gap matrix

Source (`_diagonalization.py`, lines 81–82):
`kmat = (eigenvalues.unsqueeze(-1) - eigenvalues.unsqueeze(-2) + 1e-10).reciprocal()`
`kmat[..., arange(m), arange(m)] = 0.0`.
Broadcasting gives entry `[i, j]` of the difference as
`eigenvalues[i] - eigenvalues[j]`. -/

/-- Numerical-stability constant `1e-10` added to every eigenvalue gap. -/
def epsNum : ℚ := 1 / 10 ^ 10

/-- Denominator of entry `[i, j]` of the reciprocal-gap matrix:
`eigenvalues[i] - eigenvalues[j] + 1e-10` (the broadcast difference of
`eigenvalues.unsqueeze(-1)` and `eigenvalues.unsqueeze(-2)` plus the jitter). -/
def gapDenom {m : ℕ} (eigenvalues : Fin m → ℚ) (i j : Fin m) : ℚ :=
  eigenvalues i - eigenvalues j + epsNum

/-- Elementwise `.reciprocal()` of the jittered gap matrix. -/
def kmat_raw {m : ℕ} (eigenvalues : Fin m → ℚ) : Matrix (Fin m) (Fin m) ℚ :=
  Matrix.of fun i j => (gapDenom eigenvalues i j)⁻¹

/-- In-place diagonal zeroing `M[..., arange(m), arange(m)] = 0.0`. -/
def zeroDiag {m : ℕ} (M : Matrix (Fin m) (Fin m) ℚ) : Matrix (Fin m) (Fin m) ℚ :=
  Matrix.of fun i j => if i = j then 0 else M i j

/-- The matrix `kmat` as the code leaves it before the Hadamard step. -/
def kmat {m : ℕ} (eigenvalues : Fin m → ℚ) : Matrix (Fin m) (Fin m) ℚ :=
  zeroDiag (kmat_raw eigenvalues)

/-! ### Diagonalization.backward — gradient terms

Source (lines 85–92):
`inner_term = kmat.transpose(-1, -2) * q_mat.transpose(-1, -2).matmul(evecs_grad_output)`
`term1 = q_mat.matmul(inner_term).matmul(q_mat.transpose(-1, -2))`
`term2 = q_mat.matmul(torch.diag_embed(evals_grad_output)).matmul(q_mat.transpose(-1, -2))`
`dL_dM = term1 + term2`. -/

/-- Elementwise (Hadamard) product of `kmat.transpose(-1,-2)` with
`q_mat.transpose(-1,-2).matmul(evecs_grad_output)`. -/
def inner_term {n m : ℕ} (eigenvalues : Fin m → ℚ) (q_mat : Matrix (Fin n) (Fin m) ℚ)
    (evecs_grad_output : Matrix (Fin n) (Fin m) ℚ) : Matrix (Fin m) (Fin m) ℚ :=
  Matrix.of fun i j =>
    (kmat eigenvalues).transpose i j * (q_mat.transpose * evecs_grad_output) i j

/-- First gradient term `q_mat.matmul(inner_term).matmul(q_mat.transpose(-1,-2))`. -/
def term1 {n m : ℕ} (eigenvalues : Fin m → ℚ) (q_mat : Matrix (Fin n) (Fin m) ℚ)
    (evecs_grad_output : Matrix (Fin n) (Fin m) ℚ) : Matrix (Fin n) (Fin n) ℚ :=
  q_mat * inner_term eigenvalues q_mat evecs_grad_output * q_mat.transpose

/-- Second gradient term
`q_mat.matmul(torch.diag_embed(evals_grad_output)).matmul(q_mat.transpose(-1,-2))`. -/
def term2 {n m : ℕ} (q_mat : Matrix (Fin n) (Fin m) ℚ) (evals_grad_output : Fin m → ℚ) :
    Matrix (Fin n) (Fin n) ℚ :=
  q_mat * Matrix.diagonal evals_grad_output * q_mat.transpose

/-- The parameter gradient `dL_dM = term1 + term2`. -/
def dL_dM {n m : ℕ} (eigenvalues : Fin m → ℚ) (q_mat : Matrix (Fin n) (Fin m) ℚ)
    (evals_grad_output : Fin m → ℚ) (evecs_grad_output : Matrix (Fin n) (Fin m) ℚ) :
    Matrix (Fin n) (Fin n) ℚ :=
  term1 eigenvalues q_mat evecs_grad_output + term2 q_mat evals_grad_output

/-- Return value of `Diagonalization.backward`, one field per forward input, in
the forward's positional order. Source (line 93):
`output = tuple([None] * 6 + [dL_dM])`. -/
structure BackwardGrads (n m : ℕ) where
  representationTreeGrad : Option Unit
  deviceGrad : Option Unit
  dtypeGrad : Option Unit
  matrixShapeGrad : Option Unit
  maxIterGrad : Option Unit
  batchShapeGrad : Option Unit
  matrixArgsGrad : Option (Matrix (Fin n) (Fin n) ℚ)
  deriving DecidableEq

/-- The full `Diagonalization.backward`, reading the saved `q_mat` and
`eigenvalues` and returning `tuple([None] * 6 + [dL_dM])`. -/
def backward {n m : ℕ} (q_mat : Matrix (Fin n) (Fin m) ℚ) (eigenvalues : Fin m → ℚ)
    (evals_grad_output : Fin m → ℚ) (evecs_grad_output : Matrix (Fin n) (Fin m) ℚ) :
    BackwardGrads n m :=
  { representationTreeGrad := none
    deviceGrad := none
    dtypeGrad := none
    matrixShapeGrad := none
    maxIterGrad := none
    batchShapeGrad := none
    matrixArgsGrad :=
      some (dL_dM eigenvalues q_mat evals_grad_output evecs_grad_output) }

end GPyTorch

namespace GPyTorch

/-- Claim C1: for every saved eigenvector matrix `Q` and eigenvalue vector `Λ`
and every pair of upstream gradients `(dL/dΛ, dL/dQ)`, the backward pass
returns (for the parameter slot) the gradient `term1 + term2`, where
`term1 = Q · (Kᵗ ⊙ (Qᵗ · dL/dQ)) · Qᵗ` — `⊙` the elementwise Hadamard product
with the transpose of the reciprocal-gap matrix `K` built by the backward pass
(off-diagonal entries `(Λ[i] - Λ[j] + 1e-10)⁻¹`, zero diagonal) — and
`term2 = Q · diag(dL/dΛ) · Qᵗ`. -/
theorem backward_returns_term1_add_term2 {n m : ℕ}
    (Q : Matrix (Fin n) (Fin m) ℚ) (Λ : Fin m → ℚ)
    (dΛ : Fin m → ℚ) (dQ : Matrix (Fin n) (Fin m) ℚ) :
    (backward Q Λ dΛ dQ).matrixArgsGrad =
      some (Q * ((kmat Λ).transpose.hadamard (Q.transpose * dQ)) * Q.transpose
            + Q * Matrix.diagonal dΛ * Q.transpose) := by
  unfold backward dL_dM term1 term2 inner_term
  rfl

/-- Claim C2 counterexample: the claim states that the matrix built before the
Hadamard step satisfies `K[i,j] = 1/(Λ[j] − Λ[i] + 1e-10)` for `i ≠ j`.  The
code builds `kmat[i,j] = 1/(Λ[i] − Λ[j] + 1e-10)` (indices the other way
around).  At the concrete eigenvalue vector `Λ = (0, 1)` and `(i,j) = (0,1)`
the two formulas disagree: the code's entry is `1/(-1 + 1e-10)`, the claimed
entry would be `1/(1 + 1e-10)`. -/
theorem kmat_entry_claim_false :
    kmat (![0, 1] : Fin 2 → ℚ) 0 1 = ((0 : ℚ) - 1 + epsNum)⁻¹ ∧
    kmat (![0, 1] : Fin 2 → ℚ) 0 1 ≠ ((1 : ℚ) - 0 + epsNum)⁻¹ := by
  constructor
  · rfl
  · intro h
    have : ((0 : ℚ) - 1 + epsNum)⁻¹ = ((1 : ℚ) - 0 + epsNum)⁻¹ := h
    norm_num [epsNum] at this

/-- Claim C2 (amended): in the backward pass, for every eigenvalue vector `Λ`
of length `m`, the matrix `K` built before the Hadamard step satisfies
`K[i,j] = 1/(Λ[i] − Λ[j] + ε_num)` for every pair `i ≠ j`, and `K[i,i] = 0`
for every `i`, with `ε_num = 1e-10` applied identically on every entry. -/
theorem kmat_entries {m : ℕ} (Λ : Fin m → ℚ) :
    (∀ i j : Fin m, i ≠ j → kmat Λ i j = (Λ i - Λ j + epsNum)⁻¹) ∧
    (∀ i : Fin m, kmat Λ i i = 0) ∧ epsNum = 1 / 10 ^ 10 := by
  refine ⟨fun i j hij => ?_, fun i => ?_, rfl⟩
  · simp [kmat, zeroDiag, kmat_raw, gapDenom, hij]
  · simp [kmat, zeroDiag]

/-- Witness for the amended C2 at the concrete eigenvalue vector `Λ = (0, 1)`,
pair `(0, 1)` and diagonal index `0`. -/
theorem kmat_entries_witness :
    kmat (![0, 1] : Fin 2 → ℚ) 0 1 = ((0 : ℚ) - 1 + epsNum)⁻¹ ∧
    kmat (![0, 1] : Fin 2 → ℚ) 0 0 = 0 := by
  refine ⟨?_, (kmat_entries (![0, 1] : Fin 2 → ℚ)).2.1 0⟩
  have h := (kmat_entries (![0, 1] : Fin 2 → ℚ)).1 0 1 (by decide)
  simpa using h

/-! ### Diagonalization.forward — jitter, eigensolve, context

Source (lines 29–67).  The per-batch-element mathematical content is embedded
here; the tensor-shape bookkeeping (unsqueeze/squeeze, lines 41–46 and 60–63)
is embedded separately below as functions on shape lists.  The collaborators
`lanczos_tridiag` and `lanczos_tridiag_to_diag` live in `gpytorch/utils/
lanczos.py`, outside the excerpt, so the forward is parametric in them. -/

/-- Minimum diagonal entry of one batch element of `t_mat`:
`lazify(t_mat).diag().min(dim=-1, keepdim=True)[0]` (line 48). -/
def mins {m : ℕ} (t_mat : Matrix (Fin (m + 1)) (Fin (m + 1)) ℚ) : ℚ :=
  Finset.univ.inf' Finset.univ_nonempty fun i => t_mat i i

/-- Jitter matrix for one batch element:
`(settings.tridiagonal_jitter.value() * mins) * torch.eye(t_mat.size(-1)).expand_as(t_mat)`
(lines 49–51); `tridiagonal_jitter.value()` is the parameter `jitter`. -/
def jitter_mat {m : ℕ} (jitter : ℚ) (t_mat : Matrix (Fin (m + 1)) (Fin (m + 1)) ℚ) :
    Matrix (Fin (m + 1)) (Fin (m + 1)) ℚ :=
  Matrix.of fun i j => (jitter * mins t_mat) * (if i = j then (1 : ℚ) else 0)

/-- The matrix handed to the eigensolver: `t_mat + jitter_mat` (line 52). -/
def jittered_t {m : ℕ} (jitter : ℚ) (t_mat : Matrix (Fin (m + 1)) (Fin (m + 1)) ℚ) :
    Matrix (Fin (m + 1)) (Fin (m + 1)) ℚ :=
  Matrix.of fun i j => t_mat i j + jitter_mat jitter t_mat i j

/-- One entry of `ctx.save_for_backward(*to_save)`: a raw matrix argument
(of caller-chosen type `α`), the final `q_mat`, or the eigenvalues. -/
inductive SavedTensor (α : Type) (n m : ℕ) where
  | arg (a : α)
  | matT (M : Matrix (Fin n) (Fin m) ℚ)
  | vecT (v : Fin m → ℚ)
  deriving DecidableEq

/-- The autograd context as the forward pass leaves it: the optionally retained
operator object `ctx._lazy_tsr` (line 57–58) and the saved tensor list
(lines 65–66). -/
structure FwdCtx (α L : Type) (n m : ℕ) where
  lazy_tsr : Option L
  saved_tensors : List (SavedTensor α n m)

/-- The forward pass for one batch element (lines 29–67): build the operator
from the representation tree, run Lanczos, jitter the tridiagonal matrix,
eigensolve it, form `q_mat = q_mat.matmul(eigenvectors)`, optionally retain
the operator, save state, and return `(eigenvalues, q_mat)`. -/
def forward {α L : Type} {n m : ℕ} (memory_efficient_on : Bool) (jitter : ℚ)
    (representation_tree : List α → L)
    (lanczos_tridiag :
      L → Matrix (Fin n) (Fin (m + 1)) ℚ × Matrix (Fin (m + 1)) (Fin (m + 1)) ℚ)
    (lanczos_tridiag_to_diag :
      Matrix (Fin (m + 1)) (Fin (m + 1)) ℚ →
        (Fin (m + 1) → ℚ) × Matrix (Fin (m + 1)) (Fin (m + 1)) ℚ)
    (matrix_args : List α) :
    ((Fin (m + 1) → ℚ) × Matrix (Fin n) (Fin (m + 1)) ℚ) × FwdCtx α L n (m + 1) :=
  let lazy_tsr := representation_tree matrix_args
  let qt := lanczos_tridiag lazy_tsr
  let eu := lanczos_tridiag_to_diag (jittered_t jitter qt.2)
  let eigenvalues := eu.1
  let q_mat := qt.1 * eu.2
  ((eigenvalues, q_mat),
   { lazy_tsr := if memory_efficient_on then none else some lazy_tsr
     saved_tensors :=
       matrix_args.map SavedTensor.arg ++ [SavedTensor.matT q_mat, SavedTensor.vecT eigenvalues] })

/-- The backward pass as it actually consumes the context: it reads only
`ctx.saved_tensors[-2]` (`q_mat`) and `ctx.saved_tensors[-1]` (`eigenvalues`),
lines 76–77, and never touches `ctx._lazy_tsr`. -/
def backward_from_ctx {α L : Type} {n m : ℕ} (ctx : FwdCtx α L n m)
    (evals_grad_output : Fin m → ℚ) (evecs_grad_output : Matrix (Fin n) (Fin m) ℚ) :
    Option (BackwardGrads n m) :=
  match ctx.saved_tensors.reverse with
  | SavedTensor.vecT eigenvalues :: SavedTensor.matT q_mat :: _ =>
      some (backward q_mat eigenvalues evals_grad_output evecs_grad_output)
  | _ => none

/-- Claim C4: for every invocation, the backward pass returns the gradient
`term1 + term2` for the single differentiable parameter slot, and returns no
gradient (`None`) for each of the six non-differentiable forward inputs:
representation tree, device, dtype, matrix shape, iteration count, batch
shape. -/
theorem backward_none_gradients {n m : ℕ}
    (Q : Matrix (Fin n) (Fin m) ℚ) (Λ : Fin m → ℚ)
    (dΛ : Fin m → ℚ) (dQ : Matrix (Fin n) (Fin m) ℚ) :
    (backward Q Λ dΛ dQ).representationTreeGrad = none ∧
    (backward Q Λ dΛ dQ).deviceGrad = none ∧
    (backward Q Λ dΛ dQ).dtypeGrad = none ∧
    (backward Q Λ dΛ dQ).matrixShapeGrad = none ∧
    (backward Q Λ dΛ dQ).maxIterGrad = none ∧
    (backward Q Λ dΛ dQ).batchShapeGrad = none ∧
    (backward Q Λ dΛ dQ).matrixArgsGrad =
      some (term1 Λ Q dQ + term2 Q dΛ) :=
  ⟨rfl, rfl, rfl, rfl, rfl, rfl, rfl⟩

/-- Claim C8 counterexample: the claim states that whenever the eigenvalue
vector contains two equal eigenvalues, the `ε_num` floor keeps every entry of
`K` finite, so the division in building `K` never hits a zero denominator.
At the concrete eigenvalue vector `Λ = (0, 0, 1e-10)` — which does contain two
equal eigenvalues — the denominator of entry `(0, 2)` is
`0 − 1e-10 + 1e-10 = 0`: the division by zero happens anyway (in torch the
entry becomes `inf` and the gradient is not finite). -/
theorem kmat_denominator_zero_with_duplicates :
    (![0, 0, epsNum] : Fin 3 → ℚ) 0 = (![0, 0, epsNum] : Fin 3 → ℚ) 1 ∧
    (0 : Fin 3) ≠ 2 ∧
    gapDenom (![0, 0, epsNum] : Fin 3 → ℚ) 0 2 = 0 := by
  refine ⟨rfl, by decide, ?_⟩
  simp [gapDenom]

/-- Claim C8 (amended): for every pair of *equal* eigenvalues the denominator
built by the backward pass equals exactly `ε_num`, which is nonzero — so the
colliding pair itself never produces a division by zero and its `K` entries
stay finite.  (Entries for a pair of eigenvalues whose gap is exactly
`−ε_num` can still divide by zero, per the counterexample.) -/
theorem gapDenom_of_equal_eigenvalues {m : ℕ} (Λ : Fin m → ℚ) (i j : Fin m)
    (h : Λ i = Λ j) : gapDenom Λ i j = epsNum ∧ gapDenom Λ i j ≠ 0 := by
  constructor
  · simp [gapDenom, h]
  · simp [gapDenom, h]
    norm_num [epsNum]

/-- Witness for the amended C8 at the concrete eigenvalue vector
`Λ = (5, 5)`, pair `(0, 1)`. -/
theorem gapDenom_of_equal_eigenvalues_witness :
    gapDenom (![5, 5] : Fin 2 → ℚ) 0 1 = epsNum ∧
    gapDenom (![5, 5] : Fin 2 → ℚ) 0 1 ≠ 0 :=
  gapDenom_of_equal_eigenvalues (![5, 5] : Fin 2 → ℚ) 0 1 rfl

/-- Claim C3: for every tridiagonal matrix `T` produced by the Lanczos stage
(each batch element being one such matrix), the matrix handed to the
eigensolver is `T + ε·I` with `ε = tridiagonal_jitter × min_i T[i,i]`; the
scalar `mins T` used by the code really is the minimum over the diagonal
entries (attained by some entry and a lower bound of all of them — hence not
the mean or the maximum in general). -/
theorem eigensolver_input_is_t_plus_min_jitter {m : ℕ} (jitter : ℚ)
    (T : Matrix (Fin (m + 1)) (Fin (m + 1)) ℚ) :
    jittered_t jitter T = T + (jitter * mins T) • (1 : Matrix (Fin (m + 1)) (Fin (m + 1)) ℚ) ∧
    (∃ i, mins T = T i i) ∧ (∀ i, mins T ≤ T i i) := by
  refine ⟨?_, ?_, fun i => Finset.inf'_le _ (Finset.mem_univ i)⟩
  · ext i j
    by_cases h : i = j <;>
      simp [jittered_t, jitter_mat, Matrix.smul_apply, Matrix.one_apply, h]
  · obtain ⟨i, _, h⟩ := Finset.exists_mem_eq_inf' Finset.univ_nonempty fun i => T i i
    exact ⟨i, h⟩

/-- Claim C5: for every forward invocation the returned pair is, in order,
`(eigenvalues, eigenvectors)` where the eigenvalues are those of the jittered
tridiagonal matrix and the eigenvector output is `Q = Q₀ · U` — the Lanczos
basis times the eigenvector matrix of the jittered tridiagonal matrix. -/
theorem forward_returns_evals_and_q0_mul_u {α L : Type} {n m : ℕ}
    (memory_efficient_on : Bool) (jitter : ℚ) (representation_tree : List α → L)
    (lanczos_tridiag :
      L → Matrix (Fin n) (Fin (m + 1)) ℚ × Matrix (Fin (m + 1)) (Fin (m + 1)) ℚ)
    (lanczos_tridiag_to_diag :
      Matrix (Fin (m + 1)) (Fin (m + 1)) ℚ →
        (Fin (m + 1) → ℚ) × Matrix (Fin (m + 1)) (Fin (m + 1)) ℚ)
    (matrix_args : List α) :
    (forward memory_efficient_on jitter representation_tree lanczos_tridiag
        lanczos_tridiag_to_diag matrix_args).1 =
      ((lanczos_tridiag_to_diag (jittered_t jitter
          (lanczos_tridiag (representation_tree matrix_args)).2)).1,
       (lanczos_tridiag (representation_tree matrix_args)).1 *
         (lanczos_tridiag_to_diag (jittered_t jitter
           (lanczos_tridiag (representation_tree matrix_args)).2)).2) :=
  rfl

/-- Claim C7: the state saved by the forward pass is exactly the operator's
parameter tensors followed by the final `Q` and the eigenvalues `Λ`; when
`memory_efficient` is on, the operator object is not retained on the context;
and the backward pass consumes only the saved `Q` and `Λ` — it equals the pure
gradient function of those two saved tensors, with no re-run of Lanczos. -/
theorem forward_saved_state {α L : Type} {n m : ℕ}
    (memory_efficient_on : Bool) (jitter : ℚ) (representation_tree : List α → L)
    (lanczos_tridiag :
      L → Matrix (Fin n) (Fin (m + 1)) ℚ × Matrix (Fin (m + 1)) (Fin (m + 1)) ℚ)
    (lanczos_tridiag_to_diag :
      Matrix (Fin (m + 1)) (Fin (m + 1)) ℚ →
        (Fin (m + 1) → ℚ) × Matrix (Fin (m + 1)) (Fin (m + 1)) ℚ)
    (matrix_args : List α)
    (evals_grad_output : Fin (m + 1) → ℚ)
    (evecs_grad_output : Matrix (Fin n) (Fin (m + 1)) ℚ) :
    (forward memory_efficient_on jitter representation_tree lanczos_tridiag
        lanczos_tridiag_to_diag matrix_args).2.saved_tensors =
      matrix_args.map SavedTensor.arg ++
        [SavedTensor.matT (forward memory_efficient_on jitter representation_tree
            lanczos_tridiag lanczos_tridiag_to_diag matrix_args).1.2,
         SavedTensor.vecT (forward memory_efficient_on jitter representation_tree
            lanczos_tridiag lanczos_tridiag_to_diag matrix_args).1.1] ∧
    (memory_efficient_on = true →
      (forward memory_efficient_on jitter representation_tree lanczos_tridiag
          lanczos_tridiag_to_diag matrix_args).2.lazy_tsr = none) ∧
    backward_from_ctx
        (forward memory_efficient_on jitter representation_tree lanczos_tridiag
          lanczos_tridiag_to_diag matrix_args).2
        evals_grad_output evecs_grad_output =
      some (backward
        (forward memory_efficient_on jitter representation_tree lanczos_tridiag
          lanczos_tridiag_to_diag matrix_args).1.2
        (forward memory_efficient_on jitter representation_tree lanczos_tridiag
          lanczos_tridiag_to_diag matrix_args).1.1
        evals_grad_output evecs_grad_output) := by
  refine ⟨rfl, fun h => by simp [forward, h], ?_⟩
  simp [backward_from_ctx, forward]

/-- Concrete representation tree for witnesses: maps the argument list to a
scalar operator tag. -/
def cTree : List ℚ → ℚ := fun _ => 7

/-- Concrete one-step Lanczos stand-in for witnesses (1 × 1 matrices). -/
def cLanczos : ℚ → Matrix (Fin 1) (Fin 1) ℚ × Matrix (Fin 1) (Fin 1) ℚ := fun _ => (1, 1)

/-- Concrete eigensolver stand-in for witnesses (1 × 1 matrices). -/
def cEig : Matrix (Fin 1) (Fin 1) ℚ → (Fin 1 → ℚ) × Matrix (Fin 1) (Fin 1) ℚ :=
  fun M => (fun _ => M 0 0, 1)

/-! ### Forward-pass shape bookkeeping (lines 41–46 and 60–63)

Shapes are lists of dimension sizes, with torch semantics for `unsqueeze`
(insert a singleton; a negative index counts from the end of the *new*
shape) and `squeeze(d)` (drop dimension `d` only when its size is 1).
The Lanczos output shapes follow the spec contract `Q₀ : [..., n, m]`,
`T : [..., m, m]` (spec §4.1; `utils/lanczos.py` is outside the excerpt):
with batch shape absent and a single probe vector the leading `...` is
empty, which is exactly the configuration the code's
`unsqueeze(-3)` / `ndimension() == 3` tests are written for. -/

/-- Insertion form of `torch.unsqueeze`. -/
def unsqueezeAt (s : List ℕ) (d : Int) : List ℕ :=
  let k := (if d < 0 then d + (s.length + 1) else d).toNat
  s.take k ++ [1] ++ s.drop k

/-- Conditional removal form of `torch.squeeze(d)`. -/
def squeezeAt (s : List ℕ) (d : ℕ) : List ℕ :=
  if s.getD d 0 = 1 then s.take d ++ s.drop (d + 1) else s

/-- Shape of a batched `matmul` of `[..., n, k]` with `[..., k, k']`
(identical leading batch dimensions, as in this pipeline). -/
def matmulShape (a b : List ℕ) : List ℕ :=
  a.dropLast ++ [b.getLastD 0]

/-- Shape pipeline of `Diagonalization.forward`: the unsqueeze of the implicit
batch dimension when `batch_shape is None` (lines 41–43), the unsqueeze of the
probe dimension when `t_mat.ndimension() == 3` (lines 44–46), the eigensolve
(`eigenvalues` drops the last dimension of `t_mat`, `eigenvectors` keeps
`t_mat`'s shape), the `q_mat.matmul(eigenvectors)` (line 55), and the final
squeezes (lines 60–63).  Returns `(eigenvalues shape, q_mat shape)`. -/
def forwardShapes (batch_shape_absent : Bool) (q_shape t_shape : List ℕ) :
    List ℕ × List ℕ :=
  let q1 := if batch_shape_absent then unsqueezeAt q_shape (-3) else q_shape
  let t1 := if batch_shape_absent then unsqueezeAt t_shape (-3) else t_shape
  let q2 := if t1.length = 3 then unsqueezeAt q1 0 else q1
  let t2 := if t1.length = 3 then unsqueezeAt t1 0 else t1
  let evals := t2.dropLast
  let evecs := t2
  let q3 := matmulShape q2 evecs
  let q4 := if batch_shape_absent then squeezeAt q3 1 else q3
  let q5 := squeezeAt q4 0
  let evals2 := squeezeAt evals 0
  (evals2, q5)

/-- Claim C6 divergence: in the batched single-probe configuration
(`batch = [4]`, `Q₀ : [4,5,3]`, `T : [4,3,3]`) both outputs do lose the probe
dimension, as claimed.  But with batch shape absent and one probe vector
(`Q₀ : [5,3]`, `T : [3,3]`), the code squeezes the implicit singleton batch
dimension out of the eigenvector result only: the eigenvalues come back with
shape `[1,3]`, not `[3]` — line 63 applies only `squeeze(0)` to the
eigenvalues while `q_mat` also gets the `squeeze(1)` of line 61. -/
theorem forwardShapes_keeps_singleton_on_eigenvalues :
    forwardShapes false [4, 5, 3] [4, 3, 3] = ([4, 3], [4, 5, 3]) ∧
    forwardShapes true [5, 3] [3, 3] = ([1, 3], [5, 3]) ∧
    ([1, 3] : List ℕ) ≠ ([3] : List ℕ) := by
  refine ⟨by rfl, by rfl, by decide⟩

/-! ### Lanczos shape validation (claim C9) -/

/-- Error raised on a declared-versus-actual shape mismatch. -/
inductive LanczosError where
  | invalidShape
  deriving DecidableEq

/-- Modelled from the spec: the shape validation of the Lanczos stage.  The
deciding code lives in `gpytorch/utils/lanczos.py`, which is not part of the
excerpt; spec §7 requires that shape mismatches between the declared matrix
shape/batch shape and what the operator actually produces fail fast with an
`InvalidShape` error before any iteration begins.  The Lanczos recurrence
itself is abstracted as a step function on a caller-chosen state type; the
`ok` payload is the trace of iteration states actually produced. -/
def lanczos_checked {σ : Type} (declared_matrix_shape : ℕ × ℕ)
    (declared_batch_shape : List ℕ) (operator_matrix_shape : ℕ × ℕ)
    (operator_batch_shape : List ℕ) (init : σ) (step : σ → σ) (max_iter : ℕ) :
    Except LanczosError (List σ) :=
  if declared_matrix_shape = operator_matrix_shape ∧
      declared_batch_shape = operator_batch_shape then
    Except.ok ((List.range max_iter).map fun k => step^[k + 1] init)
  else
    Except.error LanczosError.invalidShape

/-- Iteration states actually produced by a checked Lanczos run (empty when
the run failed shape validation). -/
def lanczos_iterations {σ : Type} (declared_matrix_shape : ℕ × ℕ)
    (declared_batch_shape : List ℕ) (operator_matrix_shape : ℕ × ℕ)
    (operator_batch_shape : List ℕ) (init : σ) (step : σ → σ) (max_iter : ℕ) :
    List σ :=
  match lanczos_checked declared_matrix_shape declared_batch_shape
      operator_matrix_shape operator_batch_shape init step max_iter with
  | Except.ok trace => trace
  | Except.error _ => []

/-- Claim C9: whenever the declared matrix shape or batch shape does not match
what the operator actually produces, the computation fails fast with
`InvalidShape` and performs no Lanczos iteration. -/
theorem lanczos_shape_mismatch_fails_fast {σ : Type}
    (declared_matrix_shape : ℕ × ℕ) (declared_batch_shape : List ℕ)
    (operator_matrix_shape : ℕ × ℕ) (operator_batch_shape : List ℕ)
    (init : σ) (step : σ → σ) (max_iter : ℕ)
    (h : declared_matrix_shape ≠ operator_matrix_shape ∨
         declared_batch_shape ≠ operator_batch_shape) :
    lanczos_checked declared_matrix_shape declared_batch_shape
        operator_matrix_shape operator_batch_shape init step max_iter =
      Except.error LanczosError.invalidShape ∧
    lanczos_iterations declared_matrix_shape declared_batch_shape
        operator_matrix_shape operator_batch_shape init step max_iter = [] := by
  have hne : ¬(declared_matrix_shape = operator_matrix_shape ∧
      declared_batch_shape = operator_batch_shape) := by tauto
  constructor
  · simp [lanczos_checked, hne]
  · simp [lanczos_iterations, lanczos_checked, hne]

/-- Witness for C9: a declared `2 × 2` shape against an operator that actually
produces `3 × 3` fails fast with `InvalidShape` and runs zero iterations. -/
theorem lanczos_shape_mismatch_fails_fast_witness :
    lanczos_checked (2, 2) [] (3, 3) [] (0 : ℕ) Nat.succ 5 =
      Except.error LanczosError.invalidShape ∧
    lanczos_iterations (2, 2) [] (3, 3) [] (0 : ℕ) Nat.succ 5 = [] :=
  lanczos_shape_mismatch_fails_fast (2, 2) [] (3, 3) [] 0 Nat.succ 5
    (Or.inl (by decide))

/-- Witness for C7 at a concrete instantiation with `memory_efficient` on. -/
theorem forward_saved_state_witness :
    (forward true 1 cTree cLanczos cEig [(3 : ℚ)]).2.saved_tensors =
      [(3 : ℚ)].map SavedTensor.arg ++
        [SavedTensor.matT (forward true 1 cTree cLanczos cEig [(3 : ℚ)]).1.2,
         SavedTensor.vecT (forward true 1 cTree cLanczos cEig [(3 : ℚ)]).1.1] ∧
    (forward true 1 cTree cLanczos cEig [(3 : ℚ)]).2.lazy_tsr = none ∧
    backward_from_ctx (forward true 1 cTree cLanczos cEig [(3 : ℚ)]).2
        (fun _ => 1) (1 : Matrix (Fin 1) (Fin 1) ℚ) =
      some (backward (forward true 1 cTree cLanczos cEig [(3 : ℚ)]).1.2
        (forward true 1 cTree cLanczos cEig [(3 : ℚ)]).1.1
        (fun _ => 1) (1 : Matrix (Fin 1) (Fin 1) ℚ)) := by
  have h := forward_saved_state true 1 cTree cLanczos cEig [(3 : ℚ)]
    (fun _ => 1) (1 : Matrix (Fin 1) (Fin 1) ℚ)
  exact ⟨h.1, h.2.1 rfl, h.2.2⟩

/-! ### BetaLikelihood.forward (`gpytorch/likelihoods/beta_likelihood.py`)

Source (lines 54–59):
`mixture = torch.sigmoid(function_samples)`
`alpha = mixture * scale + 1`
`beta = scale - alpha + 2`
`return base_distributions.Beta(concentration1=alpha, concentration0=beta)`.
Tensors act elementwise, so the embedding is per scalar element; `scale` is
the positive-constrained parameter (`self.scale` goes through a `Positive`
constraint transform, §`BetaLikelihood.__init__`), hence the `0 < scale`
hypothesis. -/

/-- The logistic function computed by `torch.sigmoid`. -/
noncomputable def sigmoid (x : ℝ) : ℝ := 1 / (1 + Real.exp (-x))

namespace BetaLikelihood

/-- One scalar element of `BetaLikelihood.forward`: the pair
`(concentration1, concentration0)` handed to the `Beta` constructor. -/
noncomputable def forward (function_samples scale : ℝ) : ℝ × ℝ :=
  let mixture := sigmoid function_samples
  let alpha := mixture * scale + 1
  let beta := scale - alpha + 2
  (alpha, beta)

end BetaLikelihood

/-- Claim C10: for every function sample and every positive scale `s`,
`BetaLikelihood.forward` builds a Beta distribution with
`concentration1 = sigmoid(f)·s + 1` and `concentration0 = (1 − sigmoid(f))·s + 1`;
both concentrations are strictly greater than 1 (hence strictly positive, so
the Beta constructor's positivity requirement is never violated) and their
sum equals `s + 2`. -/
theorem betaLikelihood_concentrations (f s : ℝ) (hs : 0 < s) :
    (BetaLikelihood.forward f s).1 = sigmoid f * s + 1 ∧
    (BetaLikelihood.forward f s).2 = (1 - sigmoid f) * s + 1 ∧
    1 < (BetaLikelihood.forward f s).1 ∧
    1 < (BetaLikelihood.forward f s).2 ∧
    0 < (BetaLikelihood.forward f s).1 ∧
    0 < (BetaLikelihood.forward f s).2 ∧
    (BetaLikelihood.forward f s).1 + (BetaLikelihood.forward f s).2 = s + 2 := by
  have hexp : 0 < Real.exp (-f) := Real.exp_pos (-f)
  have hden : 0 < 1 + Real.exp (-f) := by linarith
  have h0 : 0 < sigmoid f := by
    unfold sigmoid
    positivity
  have h1 : sigmoid f < 1 := by
    unfold sigmoid
    rw [div_lt_one hden]
    linarith
  have halpha : (BetaLikelihood.forward f s).1 = sigmoid f * s + 1 := rfl
  have hbeta : (BetaLikelihood.forward f s).2 = (1 - sigmoid f) * s + 1 := by
    show s - (sigmoid f * s + 1) + 2 = (1 - sigmoid f) * s + 1
    ring
  refine ⟨halpha, hbeta, ?_, ?_, ?_, ?_, ?_⟩
  · rw [halpha]
    nlinarith
  · rw [hbeta]
    nlinarith
  · rw [halpha]
    nlinarith
  · rw [hbeta]
    nlinarith
  · rw [halpha, hbeta]
    ring

/-- Witness for C10 at the concrete input `function_samples = 0`,
`scale = 1`. -/
theorem betaLikelihood_concentrations_witness :
    (BetaLikelihood.forward 0 1).1 = sigmoid 0 * 1 + 1 ∧
    (BetaLikelihood.forward 0 1).2 = (1 - sigmoid 0) * 1 + 1 ∧
    1 < (BetaLikelihood.forward 0 1).1 ∧
    1 < (BetaLikelihood.forward 0 1).2 ∧
    0 < (BetaLikelihood.forward 0 1).1 ∧
    0 < (BetaLikelihood.forward 0 1).2 ∧
    (BetaLikelihood.forward 0 1).1 + (BetaLikelihood.forward 0 1).2 = 1 + 2 :=
  betaLikelihood_concentrations 0 1 (by norm_num)

end GPyTorch
